import Mathlib

/-!
Shallow embedding of `src/main.py`: a minimal observer pattern over a
simulated CPU temperature sensor.

A Python object's `__dict__` is modelled as an association list from
attribute names to values (`Dict Obs`).  Attribute values occurring in the
program are integers (the temperature) and the list of registered
observers, so `PyVal` has exactly those two shapes.  Observer identity is
abstract (`Obs` with decidable equality): `list.remove` and the notify
loop only compare observers for equality.
-/

set_option autoImplicit false

namespace ObserverPattern

/-- A Python attribute value occurring in this program: an integer reading,
or the list of registered observers (stored under `_observers`). -/
inductive PyVal (Obs : Type) where
  | int : Int → PyVal Obs
  | list : List Obs → PyVal Obs
deriving DecidableEq

/-- A Python `__dict__`: attribute names to values, in insertion order. -/
abbrev Dict (Obs : Type) := List (String × PyVal Obs)

/-- Python attribute lookup `getattr`: first entry with the given name
(`__dict__` keys are unique in Python; on that representation this is the
unique entry). `none` models `AttributeError`. -/
def dictGet {Obs : Type} : Dict Obs → String → Option (PyVal Obs)
  | [], _ => none
  | (k', v) :: rest, k => if k' = k then some v else dictGet rest k

/-- Python attribute assignment `setattr` / `self.x = v` on a `__dict__`:
overwrite the entry if the name is present (keeping its position), else
append a new entry at the end (Python dicts preserve insertion order). -/
def dictSet {Obs : Type} (d : Dict Obs) (k : String) (v : PyVal Obs) : Dict Obs :=
  if k ∈ d.map Prod.fst then d.map (fun p => if p.1 = k then (k, v) else p)
  else d ++ [(k, v)]

/-- Model of `Subject.__init__`: `self._observers = []`. -/
def Subject.init {Obs : Type} : Dict Obs := [("_observers", PyVal.list [])]

/-- The current `self._observers` list of a subject state. -/
def Subject.observers {Obs : Type} (d : Dict Obs) : List Obs :=
  match dictGet d "_observers" with
  | some (PyVal.list l) => l
  | _ => []

/-- Model of `Subject.register`: `self._observers.append(observer)`. -/
def Subject.register {Obs : Type} (d : Dict Obs) (o : Obs) : Dict Obs :=
  dictSet d "_observers" (PyVal.list (Subject.observers d ++ [o]))

/-- Python `list.remove(x)`: delete the first element equal to `x`;
raise `ValueError` when no element matches. -/
def listRemove {Obs : Type} [DecidableEq Obs] : List Obs → Obs → Except String (List Obs)
  | [], _ => Except.error "ValueError: list.remove(x): x not in list"
  | x :: rest, o =>
      if x = o then Except.ok rest
      else (listRemove rest o).map (fun l => x :: l)

/-- Model of `Subject.remove`: `self._observers.remove(observer)`.  The raised
`ValueError` propagates as `Except.error`; on error the state is
unchanged (no new dict is produced). -/
def Subject.remove {Obs : Type} [DecidableEq Obs] (d : Dict Obs) (o : Obs) :
    Except String (Dict Obs) :=
  (listRemove (Subject.observers d) o).map
    (fun l => dictSet d "_observers" (PyVal.list l))

/-- Model of the `key.startswith` test against the one-character pattern:
the name's first character is an underscore. -/
def isPrivateName (k : String) : Bool :=
  match k.data with
  | [] => false
  | c :: _ => c = '_'

/-- Model of `Subject._get_vars`: the `(key, value)` pairs of `self.__dict__` whose
keys do not start with an underscore, in dict (insertion) order. -/
def Subject.getVars {Obs : Type} (d : Dict Obs) : Dict Obs :=
  d.filter (fun p => !(isPrivateName p.1))

/-- The whole-program state: the sensor's `__dict__` plus each observer's
own attribute storage (`setattr(self, name, val)` writes there). -/
structure World (Obs : Type) where
  sensorDict : Dict Obs
  obsAttrs : Obs → Dict Obs

/-- The dynamic-dispatch table: each observer's `on_change` body, reading
the observer's just-updated attributes and returning the sequence of
strings it prints.  `none` models an exception raised inside `on_change`
(for the concrete observers: `temp` missing or non-numeric). -/
structure ObsSpec (Obs : Type) where
  onChange : Obs → Dict Obs → Option (List String)

/-- The `for (name, val) in data: setattr(self, name, val)` loop of
`Observer.update`, folded over the observer's attribute dict. -/
def setAttrs {Obs : Type} (attrs data : Dict Obs) : Dict Obs :=
  data.foldl (fun d p => dictSet d p.1 p.2) attrs

/-- Replace one observer's attribute dict in the world. -/
def writeAttrs {Obs : Type} [DecidableEq Obs] (w : World Obs) (o : Obs)
    (attrs : Dict Obs) : World Obs :=
  { w with obsAttrs := fun p => if p = o then attrs else w.obsAttrs p }

/-- Model of `Observer.update(self, data)`: assign each `(name, val)` pair of
`data` onto the observer's own attributes with `setattr`, then call
`self.on_change(self)`.  Returns the new world (the `setattr` writes
persist even if `on_change` raises) and the printed output, `none`
meaning `on_change` raised. -/
def Observer.update {Obs : Type} [DecidableEq Obs] (B : ObsSpec Obs) (w : World Obs)
    (o : Obs) (data : Dict Obs) : World Obs × Option (List String) :=
  (writeAttrs w o (setAttrs (w.obsAttrs o) data),
   B.onChange o (setAttrs (w.obsAttrs o) data))

/-- The world after one iteration of the notify loop on observer `o`
(the observer's attributes absorb the sensor's public snapshot). -/
def stepWorld {Obs : Type} [DecidableEq Obs] (w : World Obs) (o : Obs) : World Obs :=
  writeAttrs w o (setAttrs (w.obsAttrs o) (Subject.getVars w.sensorDict))

/-- The loop body of `Subject.notify`:
`for observer in self._observers: observer.update(observer, self._get_vars())`.
Returns the list of observers on which `update` was invoked (in call
order), the final world, and `some` of the concatenated printed output
when every call returned normally (`none`: an exception aborted the
remaining iterations, as in the source). -/
def notifyLoop {Obs : Type} [DecidableEq Obs] (B : ObsSpec Obs) :
    List Obs → World Obs → List Obs × World Obs × Option (List String)
  | [], w => ([], w, some [])
  | o :: rest, w =>
      match Observer.update B w o (Subject.getVars w.sensorDict) with
      | (w1, none) => ([o], w1, none)
      | (w1, some out) =>
          match notifyLoop B rest w1 with
          | (tr, w2, none) => (o :: tr, w2, none)
          | (tr, w2, some out2) => (o :: tr, w2, some (out ++ out2))

/-- Model of `Subject.notify`: run the update loop over the registered observers. -/
def Subject.notify {Obs : Type} [DecidableEq Obs] (B : ObsSpec Obs) (w : World Obs) :
    List Obs × World Obs × Option (List String) :=
  notifyLoop B (Subject.observers w.sensorDict) w

/-- Model of `CpuSensor.change_measurements(self, temp)`:
`self.temp = temp; self.notify()`. -/
def CpuSensor.change_measurements {Obs : Type} [DecidableEq Obs] (B : ObsSpec Obs)
    (w : World Obs) (temp : Int) : List Obs × World Obs × Option (List String) :=
  Subject.notify B { w with sensorDict := dictSet w.sensorDict "temp" (PyVal.int temp) }

/-- Model of `CpuController.on_change`: print a blank line and `"CpuController: "`,
then `"Panic!"` if `self.temp > 90` else `"Everything under control"`.
`none` models the `AttributeError`/`TypeError` raised when `temp` is
missing or not a number. -/
def CpuController.on_change {Obs : Type} (attrs : Dict Obs) : Option (List String) :=
  match dictGet attrs "temp" with
  | some (PyVal.int t) =>
      some (["\n", "CpuController: "] ++
        if t > 90 then ["Panic!"] else ["Everything under control"])
  | _ => none

/-- Model of `TempDisplay.on_change`: print `"Display: "`, then the
temperature interpolated into the format text with unit suffix `" Deg"`. -/
def TempDisplay.on_change {Obs : Type} (attrs : Dict Obs) : Option (List String) :=
  match dictGet attrs "temp" with
  | some (PyVal.int t) => some ["Display: ", toString t ++ " Deg"]
  | _ => none

/-- The two observer classes the driver registers. -/
inductive ObsCls where
  | CpuController
  | TempDisplay
deriving DecidableEq

/-- Dispatch for the driver's observers. -/
def driverSpec : ObsSpec ObsCls where
  onChange o attrs :=
    match o with
    | ObsCls.CpuController => CpuController.on_change attrs
    | ObsCls.TempDisplay => TempDisplay.on_change attrs

/-- The driver's sensor right after the two `register` calls. -/
def driverSensor : Dict ObsCls :=
  Subject.register (Subject.register Subject.init ObsCls.CpuController) ObsCls.TempDisplay

/-- The driver's whole-program state right after the two `register` calls:
neither the sensor nor any observer has a `temp` attribute yet. -/
def wDriver : World ObsCls :=
  { sensorDict := driverSensor, obsAttrs := fun _ => [] }

/-- The driver's state with `temp` already set to `95` on the sensor
(the state `notify()` sees inside `change_measurements(95)`). -/
def wDriver95 : World ObsCls :=
  { sensorDict := dictSet driverSensor "temp" (PyVal.int 95), obsAttrs := fun _ => [] }

/-- A sensor with no observers registered. -/
def wEmpty : World ObsCls :=
  { sensorDict := Subject.init, obsAttrs := fun _ => [] }

/-- A sensor on which `CpuController` has been registered twice. -/
def dTwice : Dict ObsCls :=
  Subject.register (Subject.register Subject.init ObsCls.CpuController) ObsCls.CpuController

/-- The dict `dTwice` after `remove(CpuController)`: one registration is left. -/
def dOnce : Dict ObsCls :=
  dictSet dTwice "_observers" (PyVal.list [ObsCls.CpuController])

/-- The driver's sensor with a third registration appended. -/
def dReg3 : Dict ObsCls :=
  Subject.register driverSensor ObsCls.CpuController

/-!
### Python calling convention and abstract-class model

`notify` runs `observer.update(observer, self._get_vars())` and the body
of `Observer.update` runs `self.on_change(self)`.  Whether these calls
pass Python's arity check depends on how the callee was obtained:
accessing a function through a class yields the plain function (no bound
argument), accessing it through an instance yields a bound method with
the instance implicitly passed as `self`.
-/

/-- The kind of receiver an attribute access goes through. -/
inductive Receiver where
  | classObject
  | instanceObject
deriving DecidableEq

/-- Implicit arguments Python prepends to a call of a method accessed on
the receiver: none through a class, the receiver itself through an
instance. -/
def implicitSelfArgs : Receiver → Nat
  | Receiver.classObject => 0
  | Receiver.instanceObject => 1

/-- A Python call raises no arity `TypeError` iff implicit plus explicit
arguments equal the function's declared parameter count. -/
def callOk (paramCount explicitArgs : Nat) (r : Receiver) : Bool :=
  implicitSelfArgs r + explicitArgs == paramCount

/-- Parameter count of `Observer.update`, declared `(self, data)`. -/
def updateParamCount : Nat := 2

/-- Parameter count of `Observer.on_change`, declared `(self)`. -/
def onChangeParamCount : Nat := 1

/-- The two calls one notification makes on a registered observer:
`observer.update(observer, self._get_vars())` passes two explicit
arguments, and inside `update`, `self.on_change(self)` passes one. -/
def notifyCallSucceeds (r : Receiver) : Bool :=
  callOk updateParamCount 2 r && callOk onChangeParamCount 1 r

/-- The methods `Observer` declares with `@abstractmethod`. -/
def observerAbstractMethods : List String := ["update", "on_change"]

/-- The methods `CpuController` overrides. -/
def cpuControllerDefines : List String := ["on_change"]

/-- The methods `TempDisplay` overrides. -/
def tempDisplayDefines : List String := ["on_change"]

/-- Python's ABC machinery: a class can be instantiated only if every
inherited abstract method has been overridden. -/
def instantiable (defines : List String) : Bool :=
  observerAbstractMethods.all (fun m => defines.contains m)

/-! ### Lookup / assignment lemmas for the `__dict__` model -/

theorem dictGet_append_of_none {Obs : Type} {d : Dict Obs} {k : String} (e : Dict Obs)
    (h : dictGet d k = none) : dictGet (d ++ e) k = dictGet e k := by
  induction d with
  | nil => rfl
  | cons p rest ih =>
      obtain ⟨k', v⟩ := p
      by_cases hk : k' = k
      · simp [dictGet, hk] at h
      · simp only [List.cons_append, dictGet, if_neg hk] at h ⊢
        exact ih h

theorem dictGet_append_of_some {Obs : Type} {d : Dict Obs} {k : String} {v : PyVal Obs}
    (e : Dict Obs) (h : dictGet d k = some v) : dictGet (d ++ e) k = some v := by
  induction d with
  | nil => simp [dictGet] at h
  | cons p rest ih =>
      obtain ⟨k', v'⟩ := p
      by_cases hk : k' = k
      · simp only [List.cons_append, dictGet, if_pos hk] at h ⊢
        exact h
      · simp only [List.cons_append, dictGet, if_neg hk] at h ⊢
        exact ih h

theorem dictGet_eq_none_of_not_mem {Obs : Type} {d : Dict Obs} {k : String}
    (h : k ∉ d.map Prod.fst) : dictGet d k = none := by
  induction d with
  | nil => rfl
  | cons p rest ih =>
      obtain ⟨k', v⟩ := p
      simp only [List.map_cons, List.mem_cons] at h
      push_neg at h
      simp only [dictGet, if_neg (fun hh : k' = k => h.1 hh.symm)]
      exact ih h.2

theorem dictGet_mapSet_self {Obs : Type} {d : Dict Obs} {k : String} (v : PyVal Obs)
    (h : k ∈ d.map Prod.fst) :
    dictGet (d.map (fun p => if p.1 = k then (k, v) else p)) k = some v := by
  induction d with
  | nil => simp at h
  | cons p rest ih =>
      obtain ⟨k', v'⟩ := p
      simp only [List.map_cons]
      by_cases hk : k' = k
      · rw [if_pos hk]
        simp [dictGet]
      · rw [if_neg hk]
        have hmem : k ∈ rest.map Prod.fst := by
          simp only [List.map_cons, List.mem_cons] at h
          exact h.resolve_left (fun hh => hk hh.symm)
        simp only [dictGet, if_neg hk]
        exact ih hmem

theorem dictGet_mapSet_ne {Obs : Type} {d : Dict Obs} {k k' : String} (v : PyVal Obs)
    (h : k' ≠ k) :
    dictGet (d.map (fun p => if p.1 = k then (k, v) else p)) k' = dictGet d k' := by
  induction d with
  | nil => rfl
  | cons p rest ih =>
      obtain ⟨a, b⟩ := p
      simp only [List.map_cons]
      by_cases ha : a = k
      · rw [if_pos ha]
        simp only [dictGet]
        rw [if_neg (fun hh : k = k' => h hh.symm),
            if_neg (fun hh : a = k' => h (ha.symm.trans hh).symm)]
        exact ih
      · rw [if_neg ha]
        simp only [dictGet]
        by_cases hak : a = k'
        · rw [if_pos hak, if_pos hak]
        · rw [if_neg hak, if_neg hak]
          exact ih

theorem dictGet_dictSet_self {Obs : Type} (d : Dict Obs) (k : String) (v : PyVal Obs) :
    dictGet (dictSet d k v) k = some v := by
  unfold dictSet
  by_cases h : k ∈ d.map Prod.fst
  · rw [if_pos h]
    exact dictGet_mapSet_self v h
  · rw [if_neg h, dictGet_append_of_none _ (dictGet_eq_none_of_not_mem h)]
    simp [dictGet]

theorem dictGet_dictSet_ne {Obs : Type} (d : Dict Obs) {k k' : String} (v : PyVal Obs)
    (h : k' ≠ k) : dictGet (dictSet d k v) k' = dictGet d k' := by
  unfold dictSet
  by_cases hm : k ∈ d.map Prod.fst
  · rw [if_pos hm]
    exact dictGet_mapSet_ne v h
  · rw [if_neg hm]
    cases hg : dictGet d k' with
    | some w => exact dictGet_append_of_some _ hg
    | none =>
        rw [dictGet_append_of_none _ hg]
        simp [dictGet, if_neg (fun hh : k = k' => h hh.symm)]

theorem mem_of_dictGet_eq_some {Obs : Type} {d : Dict Obs} {k : String} {v : PyVal Obs}
    (h : dictGet d k = some v) : (k, v) ∈ d := by
  induction d with
  | nil => simp [dictGet] at h
  | cons p rest ih =>
      obtain ⟨a, b⟩ := p
      simp only [dictGet] at h
      by_cases ha : a = k
      · rw [if_pos ha] at h
        rw [← ha, ← Option.some.inj h]
        exact List.mem_cons_self _ _
      · rw [if_neg ha] at h
        exact List.mem_cons_of_mem _ (ih h)

theorem dictSet_val_eq {Obs : Type} {d : Dict Obs} {k : String} {v x : PyVal Obs}
    (h : (k, x) ∈ dictSet d k v) : x = v := by
  unfold dictSet at h
  by_cases hm : k ∈ d.map Prod.fst
  · rw [if_pos hm] at h
    rcases List.mem_map.mp h with ⟨p, hp, he⟩
    by_cases hk : p.1 = k
    · rw [if_pos hk] at he
      exact ((Prod.mk.injEq _ _ _ _).mp he).2.symm
    · rw [if_neg hk] at he
      exact absurd (congrArg Prod.fst he) (by simpa using hk)
  · rw [if_neg hm] at h
    rcases List.mem_append.mp h with h | h
    · exact absurd (List.mem_map.mpr ⟨(k, x), h, rfl⟩) hm
    · simpa using ((List.mem_singleton.mp h))

theorem dictSet_self_mem {Obs : Type} (d : Dict Obs) (k : String) (v : PyVal Obs) :
    (k, v) ∈ dictSet d k v :=
  mem_of_dictGet_eq_some (dictGet_dictSet_self d k v)

/-! ### Lemmas about the `setattr` loop of `Observer.update` -/

theorem setAttrs_cons {Obs : Type} (a : Dict Obs) (p : String × PyVal Obs)
    (data : Dict Obs) : setAttrs a (p :: data) = setAttrs (dictSet a p.1 p.2) data := rfl

theorem dictGet_setAttrs_of_not_mem {Obs : Type} {k : String} {data : Dict Obs} :
    ∀ a : Dict Obs, (∀ x, (k, x) ∉ data) → dictGet (setAttrs a data) k = dictGet a k := by
  induction data with
  | nil => intro a _; rfl
  | cons p rest ih =>
      intro a h
      obtain ⟨a1, b1⟩ := p
      rw [setAttrs_cons]
      have hne : a1 ≠ k := fun he => h b1 (by rw [he]; exact List.mem_cons_self _ _)
      rw [ih _ (fun x hx => h x (List.mem_cons_of_mem _ hx))]
      exact dictGet_dictSet_ne _ _ (fun hh => hne hh.symm)

theorem dictGet_setAttrs_of_const {Obs : Type} {k : String} {v : PyVal Obs}
    {data : Dict Obs} :
    ∀ a : Dict Obs, (∃ x, (k, x) ∈ data) → (∀ x, (k, x) ∈ data → x = v) →
      dictGet (setAttrs a data) k = some v := by
  induction data with
  | nil =>
      rintro a ⟨x, hx⟩ _
      simp at hx
  | cons p rest ih =>
      intro a hex hall
      obtain ⟨a1, b1⟩ := p
      rw [setAttrs_cons]
      by_cases hr : ∃ x, (k, x) ∈ rest
      · exact ih _ hr (fun x hx => hall x (List.mem_cons_of_mem _ hx))
      · push_neg at hr
        obtain ⟨x, hx⟩ := hex
        rcases List.mem_cons.mp hx with he | hm
        · have hk : a1 = k := (congrArg Prod.fst he).symm
          have hb : b1 = v := by
            have hx1 : x = b1 := congrArg Prod.snd he
            exact hx1 ▸ hall x hx
          rw [dictGet_setAttrs_of_not_mem _ (fun y => hr y)]
          rw [show dictSet a a1 b1 = dictSet a k v by rw [hk, hb]]
          exact dictGet_dictSet_self a k v
        · exact absurd hm (hr x)

/-! ### Lemmas about the notification loop -/

theorem writeAttrs_sensorDict {Obs : Type} [DecidableEq Obs] (w : World Obs) (o : Obs)
    (attrs : Dict Obs) : (writeAttrs w o attrs).sensorDict = w.sensorDict := rfl

theorem writeAttrs_obsAttrs_self {Obs : Type} [DecidableEq Obs] (w : World Obs) (o : Obs)
    (attrs : Dict Obs) : (writeAttrs w o attrs).obsAttrs o = attrs := by
  simp [writeAttrs]

theorem writeAttrs_obsAttrs_ne {Obs : Type} [DecidableEq Obs] (w : World Obs) {o p : Obs}
    (attrs : Dict Obs) (h : p ≠ o) : (writeAttrs w o attrs).obsAttrs p = w.obsAttrs p := by
  simp [writeAttrs, h]

theorem stepWorld_sensorDict {Obs : Type} [DecidableEq Obs] (w : World Obs) (o : Obs) :
    (stepWorld w o).sensorDict = w.sensorDict := rfl

theorem stepWorld_obsAttrs_self {Obs : Type} [DecidableEq Obs] (w : World Obs) (o : Obs) :
    (stepWorld w o).obsAttrs o = setAttrs (w.obsAttrs o) (Subject.getVars w.sensorDict) :=
  writeAttrs_obsAttrs_self w o _

theorem stepWorld_obsAttrs_ne {Obs : Type} [DecidableEq Obs] (w : World Obs) {o p : Obs}
    (h : p ≠ o) : (stepWorld w o).obsAttrs p = w.obsAttrs p :=
  writeAttrs_obsAttrs_ne w _ h

theorem notifyLoop_nil {Obs : Type} [DecidableEq Obs] (B : ObsSpec Obs) (w : World Obs) :
    notifyLoop B [] w = ([], w, some []) := rfl

theorem notifyLoop_cons_none {Obs : Type} [DecidableEq Obs] (B : ObsSpec Obs) (o : Obs)
    (rest : List Obs) (w : World Obs)
    (h : B.onChange o (setAttrs (w.obsAttrs o) (Subject.getVars w.sensorDict)) = none) :
    notifyLoop B (o :: rest) w = ([o], stepWorld w o, none) := by
  simp only [notifyLoop, Observer.update, h, stepWorld]

theorem notifyLoop_cons_some {Obs : Type} [DecidableEq Obs] (B : ObsSpec Obs) (o : Obs)
    (rest : List Obs) (w : World Obs) (out : List String)
    (h : B.onChange o (setAttrs (w.obsAttrs o) (Subject.getVars w.sensorDict)) = some out) :
    notifyLoop B (o :: rest) w =
      (o :: (notifyLoop B rest (stepWorld w o)).1,
       (notifyLoop B rest (stepWorld w o)).2.1,
       Option.map (fun out2 => out ++ out2) (notifyLoop B rest (stepWorld w o)).2.2) := by
  simp only [notifyLoop, Observer.update, h, stepWorld]
  rcases notifyLoop B rest (writeAttrs w o (setAttrs (w.obsAttrs o) (Subject.getVars w.sensorDict)))
    with ⟨tr, w2, res⟩
  cases res <;> rfl

theorem notifyLoop_sensorDict {Obs : Type} [DecidableEq Obs] (B : ObsSpec Obs) :
    ∀ (l : List Obs) (w : World Obs), (notifyLoop B l w).2.1.sensorDict = w.sensorDict := by
  intro l
  induction l with
  | nil => intro w; rfl
  | cons o rest ih =>
      intro w
      simp only [notifyLoop, Observer.update]
      cases B.onChange o (setAttrs (w.obsAttrs o) (Subject.getVars w.sensorDict)) with
      | none => rfl
      | some out =>
          simp only
          rcases hrec : notifyLoop B rest
              (writeAttrs w o (setAttrs (w.obsAttrs o) (Subject.getVars w.sensorDict)))
            with ⟨tr, w2, res⟩
          have hw := ih (writeAttrs w o (setAttrs (w.obsAttrs o) (Subject.getVars w.sensorDict)))
          rw [hrec] at hw
          cases res <;> simpa [writeAttrs_sensorDict] using hw

theorem notifyLoop_trace_subset {Obs : Type} [DecidableEq Obs] (B : ObsSpec Obs) :
    ∀ (l : List Obs) (w : World Obs) (p : Obs), p ∈ (notifyLoop B l w).1 → p ∈ l := by
  intro l
  induction l with
  | nil =>
      intro w p hp
      simp [notifyLoop_nil] at hp
  | cons o rest ih =>
      intro w p hp
      cases hoc : B.onChange o (setAttrs (w.obsAttrs o) (Subject.getVars w.sensorDict)) with
      | none =>
          rw [notifyLoop_cons_none B o rest w hoc] at hp
          simp only [List.mem_singleton] at hp
          exact hp ▸ List.mem_cons_self o rest
      | some out =>
          rw [notifyLoop_cons_some B o rest w out hoc] at hp
          rcases List.mem_cons.mp hp with h | h
          · exact h ▸ List.mem_cons_self o rest
          · exact List.mem_cons_of_mem _ (ih _ _ h)

theorem notifyLoop_trace_of_success {Obs : Type} [DecidableEq Obs] (B : ObsSpec Obs) :
    ∀ (l : List Obs) (w : World Obs),
      (notifyLoop B l w).2.2.isSome = true → (notifyLoop B l w).1 = l := by
  intro l
  induction l with
  | nil => intro w _; rfl
  | cons o rest ih =>
      intro w hs
      cases hoc : B.onChange o (setAttrs (w.obsAttrs o) (Subject.getVars w.sensorDict)) with
      | none =>
          rw [notifyLoop_cons_none B o rest w hoc] at hs
          simp at hs
      | some out =>
          rw [notifyLoop_cons_some B o rest w out hoc] at hs ⊢
          rcases hres : (notifyLoop B rest (stepWorld w o)).2.2 with _ | out2
          · rw [hres] at hs
            simp at hs
          · have hs2 : (notifyLoop B rest (stepWorld w o)).2.2.isSome = true := by
              rw [hres]; rfl
            simp only [List.cons.injEq, true_and]
            exact ih (stepWorld w o) hs2

theorem notifyLoop_attr_const {Obs : Type} [DecidableEq Obs] (B : ObsSpec Obs)
    (k : String) (v : PyVal Obs) :
    ∀ (l : List Obs) (w : World Obs),
      (∃ x, (k, x) ∈ Subject.getVars w.sensorDict) →
      (∀ x, (k, x) ∈ Subject.getVars w.sensorDict → x = v) →
      (notifyLoop B l w).2.2.isSome = true →
      (∀ o, o ∈ l → dictGet ((notifyLoop B l w).2.1.obsAttrs o) k = some v) ∧
      (∀ o, o ∉ l → (notifyLoop B l w).2.1.obsAttrs o = w.obsAttrs o) := by
  intro l
  induction l with
  | nil =>
      intro w _ _ _
      exact ⟨fun o ho => absurd ho (List.not_mem_nil o), fun o _ => rfl⟩
  | cons o rest ih =>
      intro w hex hall hs
      have hAv : dictGet (setAttrs (w.obsAttrs o) (Subject.getVars w.sensorDict)) k = some v :=
        dictGet_setAttrs_of_const _ hex hall
      cases hoc : B.onChange o (setAttrs (w.obsAttrs o) (Subject.getVars w.sensorDict)) with
      | none =>
          rw [notifyLoop_cons_none B o rest w hoc] at hs
          simp at hs
      | some out =>
          rw [notifyLoop_cons_some B o rest w out hoc] at hs ⊢
          rcases hres : (notifyLoop B rest (stepWorld w o)).2.2 with _ | out2
          · rw [hres] at hs
            simp at hs
          · have hs2 : (notifyLoop B rest (stepWorld w o)).2.2.isSome = true := by
              rw [hres]; rfl
            obtain ⟨H1, H2⟩ := ih (stepWorld w o) hex hall hs2
            constructor
            · intro p hp
              rcases List.mem_cons.mp hp with hpo | hpr
              · subst hpo
                by_cases hpr2 : p ∈ rest
                · exact H1 p hpr2
                · rw [H2 p hpr2, stepWorld_obsAttrs_self]
                  exact hAv
              · exact H1 p hpr
            · intro p hp
              have hpo : p ≠ o := fun he => hp (he ▸ List.mem_cons_self o rest)
              have hpr : p ∉ rest := fun hm => hp (List.mem_cons_of_mem _ hm)
              rw [H2 p hpr, stepWorld_obsAttrs_ne w hpo]

/-! ### Lemmas about the registry operations -/

theorem observers_eq_of_dictGet {Obs : Type} {d : Dict Obs} {l : List Obs}
    (h : dictGet d "_observers" = some (PyVal.list l)) : Subject.observers d = l := by
  unfold Subject.observers
  rw [h]

theorem observers_register {Obs : Type} (d : Dict Obs) (o : Obs) :
    Subject.observers (Subject.register d o) = Subject.observers d ++ [o] :=
  observers_eq_of_dictGet (dictGet_dictSet_self d _ _)

theorem observers_dictSet_of_ne {Obs : Type} (d : Dict Obs) {k : String} (v : PyVal Obs)
    (h : k ≠ "_observers") : Subject.observers (dictSet d k v) = Subject.observers d := by
  unfold Subject.observers
  rw [dictGet_dictSet_ne _ _ (fun hh => h hh.symm)]

theorem listRemove_of_mem {Obs : Type} [DecidableEq Obs] :
    ∀ {l : List Obs} {o : Obs}, o ∈ l → listRemove l o = Except.ok (l.erase o) := by
  intro l
  induction l with
  | nil =>
      intro o h
      simp at h
  | cons x rest ih =>
      intro o h
      by_cases hx : x = o
      · subst hx
        simp [listRemove, List.erase_cons_head]
      · have hm : o ∈ rest := (List.mem_cons.mp h).resolve_left (fun hh => hx hh.symm)
        simp only [listRemove, if_neg hx]
        rw [ih hm, List.erase_cons_tail]
        · rfl
        · simpa using hx

theorem listRemove_of_not_mem {Obs : Type} [DecidableEq Obs] :
    ∀ {l : List Obs} {o : Obs}, o ∉ l →
      listRemove l o = Except.error "ValueError: list.remove(x): x not in list" := by
  intro l
  induction l with
  | nil => intro o _; rfl
  | cons x rest ih =>
      intro o h
      have hx : x ≠ o := fun he => h (he ▸ List.mem_cons_self x rest)
      simp only [listRemove, if_neg hx]
      rw [ih (fun hm => h (List.mem_cons_of_mem _ hm))]
      rfl

theorem mem_getVars_iff {Obs : Type} (d : Dict Obs) (k : String) (x : PyVal Obs) :
    (k, x) ∈ Subject.getVars d ↔ (k, x) ∈ d ∧ isPrivateName k = false := by
  simp [Subject.getVars, List.mem_filter]

theorem remove_ok_of_mem {Obs : Type} [DecidableEq Obs] {d : Dict Obs} {o : Obs}
    (h : o ∈ Subject.observers d) :
    Subject.remove d o =
      Except.ok (dictSet d "_observers" (PyVal.list ((Subject.observers d).erase o))) := by
  unfold Subject.remove
  rw [listRemove_of_mem h]
  rfl

theorem remove_error_of_not_mem {Obs : Type} [DecidableEq Obs] {d : Dict Obs} {o : Obs}
    (h : o ∉ Subject.observers d) :
    Subject.remove d o = Except.error "ValueError: list.remove(x): x not in list" := by
  unfold Subject.remove
  rw [listRemove_of_not_mem h]
  rfl

/-! ### The claims -/

/-- C1: one `notify()` call invokes `update` exactly once on each entry of
the registry, in registration order: when the notification cycle completes
normally the trace of `update` calls equals the registry list itself, and
`register` appends, so an observer registered twice occurs twice in the
registry and is notified twice, in the order of its two registrations. -/
theorem C1_notify_updates_each_registry_entry_in_order {Obs : Type} [DecidableEq Obs]
    (B : ObsSpec Obs) (w : World Obs) (o : Obs)
    (h : (Subject.notify B w).2.2.isSome = true) :
    (Subject.notify B w).1 = Subject.observers w.sensorDict ∧
    Subject.observers (Subject.register w.sensorDict o) =
      Subject.observers w.sensorDict ++ [o] :=
  ⟨notifyLoop_trace_of_success B _ w h, observers_register _ o⟩

/-- C1 witness: in the driver's state with `temp = 95`, the notification
trace is exactly the registration-ordered registry. -/
theorem C1_witness :
    (Subject.notify driverSpec wDriver95).1 = Subject.observers wDriver95.sensorDict ∧
    Subject.observers (Subject.register wDriver95.sensorDict ObsCls.CpuController) =
      Subject.observers wDriver95.sensorDict ++ [ObsCls.CpuController] :=
  C1_notify_updates_each_registry_entry_in_order driverSpec wDriver95 ObsCls.CpuController
    (by decide)

/-- C3: with a numeric temperature `t` stored on the controller,
`on_change` reports `"Panic!"` iff `t > 90`, and reports
`"Everything under control"` otherwise (so in particular at the boundary
`t = 90`). -/
theorem C3_controller_panics_iff_above_90 {Obs : Type} (attrs : Dict Obs) (t : Int)
    (h : dictGet attrs "temp" = some (PyVal.int t)) :
    ∃ out, CpuController.on_change attrs = some out ∧
      ("Panic!" ∈ out ↔ t > 90) ∧
      ("Everything under control" ∈ out ↔ ¬ t > 90) := by
  by_cases ht : t > 90
  · refine ⟨["\n", "CpuController: ", "Panic!"], ?_, ?_, ?_⟩
    · simp only [CpuController.on_change, h]
      rw [if_pos ht]
      rfl
    · exact ⟨fun _ => ht, fun _ => by decide⟩
    · exact ⟨fun hm => absurd hm (by decide), fun hnt => absurd ht hnt⟩
  · refine ⟨["\n", "CpuController: ", "Everything under control"], ?_, ?_, ?_⟩
    · simp only [CpuController.on_change, h]
      rw [if_neg ht]
      rfl
    · exact ⟨fun hm => absurd hm (by decide), fun hgt => absurd hgt ht⟩
    · exact ⟨fun _ => ht, fun _ => by decide⟩

/-- C3 witness: at the boundary `t = 90` the controller reports
`"Everything under control"` and not `"Panic!"`. -/
theorem C3_witness :
    ∃ out, CpuController.on_change ([("temp", PyVal.int 90)] : Dict ObsCls) = some out ∧
      ("Panic!" ∈ out ↔ (90 : Int) > 90) ∧
      ("Everything under control" ∈ out ↔ ¬ (90 : Int) > 90) :=
  C3_controller_panics_iff_above_90 [("temp", PyVal.int 90)] 90 (by decide)

/-- C5: with a numeric temperature `t` stored on the display, `on_change`
reports the untransformed value followed by the unit suffix `" Deg"`. -/
theorem C5_display_reports_value_with_unit {Obs : Type} (attrs : Dict Obs) (t : Int)
    (h : dictGet attrs "temp" = some (PyVal.int t)) :
    TempDisplay.on_change attrs = some ["Display: ", toString t ++ " Deg"] := by
  unfold TempDisplay.on_change
  rw [h]

/-- C5 witness: input `73` produces the report `"73 Deg"`. -/
theorem C5_witness :
    TempDisplay.on_change ([("temp", PyVal.int 73)] : Dict ObsCls) =
      some ["Display: ", "73 Deg"] :=
  (C5_display_reports_value_with_unit [("temp", PyVal.int 73)] 73 (by decide)).trans
    (by decide)

/-- C6: `remove(o)` deletes the first matching occurrence of `o` from the
registry when `o` is present, and fails with `ValueError` ("not found",
propagated to the caller) when `o` is absent; on failure no new state is
produced, so the registry is unchanged. -/
theorem C6_remove_first_occurrence_or_error {Obs : Type} [DecidableEq Obs]
    (d : Dict Obs) (o : Obs) :
    (o ∈ Subject.observers d →
      Subject.remove d o =
        Except.ok (dictSet d "_observers"
          (PyVal.list ((Subject.observers d).erase o)))) ∧
    (o ∉ Subject.observers d →
      Subject.remove d o = Except.error "ValueError: list.remove(x): x not in list") := by
  exact ⟨fun h => remove_ok_of_mem h, fun h => remove_error_of_not_mem h⟩

/-- C6 witness: removing `CpuController` from a registry holding it twice
deletes only the first of its two occurrences; removing it from an empty
registry raises `ValueError`. -/
theorem C6_witness :
    Subject.remove dReg3 ObsCls.CpuController =
      Except.ok (dictSet dReg3 "_observers"
        (PyVal.list ((Subject.observers dReg3).erase ObsCls.CpuController))) ∧
    Subject.remove (Subject.init : Dict ObsCls) ObsCls.CpuController =
      Except.error "ValueError: list.remove(x): x not in list" :=
  ⟨(C6_remove_first_occurrence_or_error dReg3 ObsCls.CpuController).1 (by decide),
   (C6_remove_first_occurrence_or_error Subject.init ObsCls.CpuController).2 (by decide)⟩

/-- C8: the snapshot `notify()` passes to `update` is `_get_vars()`:
exactly the attribute pairs whose names are not underscore-prefixed, so
the registry (key `"_observers"`) is never included; for a sensor whose
dict holds the registry and `temp = v` the snapshot is exactly
`[("temp", v)]`. -/
theorem C8_snapshot_is_public_attributes {Obs : Type} (d : Dict Obs) (v : Int)
    (l : List Obs) :
    (∀ k x, (k, x) ∈ Subject.getVars d → isPrivateName k = false) ∧
    (∀ x, ("_observers", x) ∉ Subject.getVars d) ∧
    Subject.getVars (dictSet [("_observers", PyVal.list l)] "temp" (PyVal.int v)) =
      [("temp", PyVal.int v)] := by
  refine ⟨?_, ?_, rfl⟩
  · intro k x hk
    exact ((mem_getVars_iff d k x).mp hk).2
  · intro x hx
    have hpriv := ((mem_getVars_iff d _ x).mp hx).2
    simp [isPrivateName] at hpriv

/-- C8 witness: in the driver's sensor state with `temp = 60`, the
snapshot is exactly `[("temp", 60)]` and excludes the registry. -/
theorem C8_witness :
    (∀ k x, (k, x) ∈ Subject.getVars (driverSensor : Dict ObsCls) →
      isPrivateName k = false) ∧
    (∀ x, ("_observers", x) ∉ Subject.getVars (driverSensor : Dict ObsCls)) ∧
    Subject.getVars (dictSet [("_observers",
        PyVal.list [ObsCls.CpuController, ObsCls.TempDisplay])] "temp" (PyVal.int 60)) =
      [("temp", PyVal.int 60)] :=
  C8_snapshot_is_public_attributes driverSensor 60
    [ObsCls.CpuController, ObsCls.TempDisplay]

/-- C9: with no observers registered, `change_measurements(v)` stores the
reading, calls no observer, prints nothing and completes without failure:
the notification loop over an empty registry is a no-op. -/
theorem C9_no_observers_is_silent_noop {Obs : Type} [DecidableEq Obs] (B : ObsSpec Obs)
    (w : World Obs) (v : Int) (h : Subject.observers w.sensorDict = []) :
    CpuSensor.change_measurements B w v =
      ([], { w with sensorDict := dictSet w.sensorDict "temp" (PyVal.int v) }, some []) := by
  unfold CpuSensor.change_measurements Subject.notify
  rw [show Subject.observers (dictSet w.sensorDict "temp" (PyVal.int v)) = [] from
        (observers_dictSet_of_ne _ _ (by decide)).trans h]
  rfl

/-- C9 witness: `change_measurements(60)` on a sensor with an empty
registry calls no observer and returns no output and no error. -/
theorem C9_witness :
    CpuSensor.change_measurements driverSpec wEmpty 60 =
      ([], { wEmpty with
              sensorDict := dictSet wEmpty.sensorDict "temp" (PyVal.int 60) },
       some []) :=
  C9_no_observers_is_silent_noop driverSpec wEmpty 60 (by decide)

/-- C10: the calling convention of `notify` (which passes the observer as
an explicit argument to `update`, which in turn passes it explicitly to
`on_change`) passes Python's arity check only when the registered entry is
a class, as the driver registers; registering an instance would raise an
arity `TypeError`, and the concrete observer classes cannot be
instantiated anyway because `update` remains abstract and unoverridden. -/
theorem C10_class_registration_calling_convention :
    notifyCallSucceeds Receiver.classObject = true ∧
    notifyCallSucceeds Receiver.instanceObject = false ∧
    instantiable cpuControllerDefines = false ∧
    instantiable tempDisplayDefines = false := by
  decide

/-- C2: when `change_measurements(v)` returns normally, every registered
observer's `temp` attribute equals `v` (the sensor stores `v` under
`temp`, `notify` pushes the public snapshot, and `update` copies it onto
each observer). -/
theorem C2_change_measurements_sets_temp_on_observers {Obs : Type} [DecidableEq Obs]
    (B : ObsSpec Obs) (w : World Obs) (v : Int)
    (h : (CpuSensor.change_measurements B w v).2.2.isSome = true) :
    ∀ o, o ∈ Subject.observers w.sensorDict →
      dictGet ((CpuSensor.change_measurements B w v).2.1.obsAttrs o) "temp" =
        some (PyVal.int v) := by
  intro o ho
  have hobs : Subject.observers (dictSet w.sensorDict "temp" (PyVal.int v)) =
      Subject.observers w.sensorDict := observers_dictSet_of_ne _ _ (by decide)
  have hex : ∃ x, ("temp", x) ∈ Subject.getVars (dictSet w.sensorDict "temp" (PyVal.int v)) :=
    ⟨PyVal.int v, (mem_getVars_iff _ _ _).mpr ⟨dictSet_self_mem _ _ _, by decide⟩⟩
  have hall : ∀ x, ("temp", x) ∈ Subject.getVars (dictSet w.sensorDict "temp" (PyVal.int v)) →
      x = PyVal.int v := fun x hx => dictSet_val_eq ((mem_getVars_iff _ _ _).mp hx).1
  have hmain := notifyLoop_attr_const B "temp" (PyVal.int v)
      (Subject.observers (dictSet w.sensorDict "temp" (PyVal.int v)))
      { w with sensorDict := dictSet w.sensorDict "temp" (PyVal.int v) } hex hall h
  exact hmain.1 o (by rw [hobs]; exact ho)

/-- C2 witness: after `change_measurements(60)` in the driver state, both
registered observers hold `temp = 60`. -/
theorem C2_witness :
    dictGet ((CpuSensor.change_measurements driverSpec wDriver 60).2.1.obsAttrs
        ObsCls.CpuController) "temp" = some (PyVal.int 60) ∧
    dictGet ((CpuSensor.change_measurements driverSpec wDriver 60).2.1.obsAttrs
        ObsCls.TempDisplay) "temp" = some (PyVal.int 60) :=
  ⟨C2_change_measurements_sets_temp_on_observers driverSpec wDriver 60 (by decide)
      ObsCls.CpuController (by decide),
   C2_change_measurements_sets_temp_on_observers driverSpec wDriver 60 (by decide)
      ObsCls.TempDisplay (by decide)⟩

/-- C7: the registry is untouched by everything except `register`/`remove`:
`notify()` (with all the `update`/`on_change` calls it makes) leaves the
subject's dict — and hence the registry — unchanged, and
`change_measurements` changes no sensor attribute other than `temp`. -/
theorem C7_notify_preserves_registry {Obs : Type} [DecidableEq Obs]
    (B : ObsSpec Obs) (w : World Obs) (v : Int) :
    (Subject.notify B w).2.1.sensorDict = w.sensorDict ∧
    Subject.observers (CpuSensor.change_measurements B w v).2.1.sensorDict =
      Subject.observers w.sensorDict ∧
    ∀ k, k ≠ "temp" →
      dictGet (CpuSensor.change_measurements B w v).2.1.sensorDict k =
        dictGet w.sensorDict k := by
  have hn : ∀ w2 : World Obs, (Subject.notify B w2).2.1.sensorDict = w2.sensorDict :=
    fun w2 => notifyLoop_sensorDict B _ w2
  refine ⟨hn w, ?_, ?_⟩
  · unfold CpuSensor.change_measurements
    rw [hn _]
    exact observers_dictSet_of_ne _ _ (by decide)
  · intro k hk
    unfold CpuSensor.change_measurements
    rw [hn _]
    exact dictGet_dictSet_ne _ _ hk

/-- C7 witness: in the driver state, `change_measurements(60)` leaves the
stored registry attribute `_observers` untouched. -/
theorem C7_witness :
    dictGet (CpuSensor.change_measurements driverSpec wDriver 60).2.1.sensorDict
        "_observers" = dictGet wDriver.sensorDict "_observers" :=
  (C7_notify_preserves_registry driverSpec wDriver 60).2.2 "_observers" (by decide)

/-- C4 as stated is false: with `CpuController` registered twice,
`remove` deletes only the first of its two occurrences, so the next
`notify()` still calls `update` on it. -/
theorem C4_counterexample :
    ObsCls.CpuController ∈ Subject.observers dTwice ∧
    Subject.remove dTwice ObsCls.CpuController = Except.ok dOnce ∧
    ObsCls.CpuController ∈
      (Subject.notify driverSpec { sensorDict := dOnce, obsAttrs := fun _ => [] }).1 :=
  ⟨by decide, by rfl, by decide⟩

/-- C4 amended: when the observer occurs exactly once in the registry,
`remove(o)` succeeds, `o` is no longer registered afterwards, and any
`notify()` run on a state whose registry equals the resulting one makes no
`update` call on `o`. -/
theorem C4_remove_excludes_singly_registered_observer {Obs : Type} [DecidableEq Obs]
    (w : World Obs) (o : Obs)
    (h : (Subject.observers w.sensorDict).count o = 1) :
    ∃ d2, Subject.remove w.sensorDict o = Except.ok d2 ∧
      o ∉ Subject.observers d2 ∧
      ∀ (B : ObsSpec Obs) (w2 : World Obs),
        Subject.observers w2.sensorDict = Subject.observers d2 →
        o ∉ (Subject.notify B w2).1 := by
  have hmem : o ∈ Subject.observers w.sensorDict :=
    List.count_pos_iff.mp (h ▸ Nat.one_pos)
  have herase : ((Subject.observers w.sensorDict).erase o).count o = 0 := by
    rw [List.count_erase_self, h]
  have hout : o ∉ (Subject.observers w.sensorDict).erase o :=
    List.count_eq_zero.mp herase
  refine ⟨_, remove_ok_of_mem hmem, ?_, ?_⟩
  · rw [observers_eq_of_dictGet (dictGet_dictSet_self _ _ _)]
    exact hout
  · intro B w2 hw2
    rw [observers_eq_of_dictGet (dictGet_dictSet_self _ _ _)] at hw2
    intro htr
    have := notifyLoop_trace_subset B _ w2 o htr
    rw [hw2] at this
    exact hout this

/-- C4 witness: a registry holding only `TempDisplay` and `CpuController`
once each; removing `CpuController` succeeds and the next notification
never calls it. -/
theorem C4_witness :
    ∃ d2, Subject.remove wDriver.sensorDict ObsCls.CpuController = Except.ok d2 ∧
      ObsCls.CpuController ∉ Subject.observers d2 ∧
      ∀ (B : ObsSpec ObsCls) (w2 : World ObsCls),
        Subject.observers w2.sensorDict = Subject.observers d2 →
        ObsCls.CpuController ∉ (Subject.notify B w2).1 :=
  C4_remove_excludes_singly_registered_observer wDriver ObsCls.CpuController (by decide)

end ObserverPattern
